import Mathlib

set_option linter.unusedVariables false

/-!
Shallow embedding of the lookuply/search-api backend (Python/FastAPI).

The repository delegates to two external gateways: a search index
(Meilisearch) and a language model (Ollama).  We model the pair of
gateways as a record of fallible functions; an exception raised by a
gateway is an `Except.error` carrying the exception's message (Python's
`str(e)`).  Every service-level function additionally returns the list
of gateway calls it performed, so that claims about *which* backend is
invoked, and how often, are statable.

Floating-point relevance scores are modelled as rationals: the code
only compares and range-checks them.
-/

namespace SearchApi

/-- Embedding of `meilisearch_client.SearchResult`: one normalized hit
from the search index. -/
structure SearchResult where
  id : String
  title : String
  content : String
  url : String
  score : ℚ
deriving DecidableEq, Repr

/-- Embedding of `models.Source`.  The pydantic field constraint
`relevance_score: ge=0.0, le=1.0` is enforced at construction by
`mkSource` below. -/
structure Source where
  id : String
  title : String
  url : String
  snippet : String
  relevance_score : ℚ
deriving DecidableEq, Repr

/-- Pydantic validation of a `Source`: construction fails (raises) when
the relevance score lies outside `[0, 1]`. -/
def mkSource (id title url snippet : String) (score : ℚ) : Except String Source :=
  if 0 ≤ score ∧ score ≤ 1 then
    .ok ⟨id, title, url, snippet, score⟩
  else
    .error "relevance_score out of range"

/-- One outbound call to an external gateway. -/
inductive GatewayCall where
  | searchCall (query : String) (limit : Nat)
  | generateCall (prompt : String) (system : Option String)
deriving DecidableEq, Repr

/-- Whether a gateway call is a language-model generation call. -/
def GatewayCall.isGenerate : GatewayCall → Bool
  | .generateCall _ _ => true
  | .searchCall _ _ => false

/-- The two external backends, as injected into the services
(`MeilisearchClient.search` and `OllamaClient.generate`).  An
`Except.error` models a raised exception whose `str(e)` is the payload. -/
structure Backend where
  search : String → Nat → Except String (List SearchResult)
  generate : String → Option String → Except String String

/-- Semantics of Python's `str.strip()`: remove leading and trailing
whitespace. -/
def pyStrip (s : String) : String :=
  ⟨((s.data.dropWhile Char.isWhitespace).reverse.dropWhile Char.isWhitespace).reverse⟩

/-- Embedding of `SearchService._extract_snippet` (always called with
its default `max_length = 200`). -/
def extract_snippet (content : String) (max_length : Nat) : String :=
  if content = "" then ""
  else if content.length > max_length then content.take max_length ++ "..."
  else content

/-- The loop body of `SearchService.search`: build a `Source` per hit,
propagating the first pydantic validation failure (the Python loop
raises at the first out-of-range score). -/
def toSources : List SearchResult → Except String (List Source)
  | [] => .ok []
  | r :: rest =>
    match mkSource r.id r.title r.url (extract_snippet r.content 200) r.score with
    | .error e => .error e
    | .ok s =>
      match toSources rest with
      | .error e => .error e
      | .ok ss => .ok (s :: ss)

/-- Comparison used by `sources.sort(key=lambda s: s.relevance_score,
reverse=True)`: a stable sort into non-increasing score order. -/
def searchLe (a b : Source) : Bool := decide (b.relevance_score ≤ a.relevance_score)

/-- Embedding of `SearchService.search`: one index query, projection of
hits to `Source`, stable sort by descending relevance, then `[:limit]`.
The `language` argument is accepted but unused, as in the code. -/
def SearchService.search (b : Backend) (query : String) (language : String)
    (limit : Nat) : Except String (List Source) × List GatewayCall :=
  match b.search query limit with
  | .error e => (.error e, [.searchCall query limit])
  | .ok results =>
    match toSources results with
    | .error e => (.error e, [.searchCall query limit])
    | .ok sources =>
      (.ok ((sources.mergeSort searchLe).take limit), [.searchCall query limit])

/-- Fallback answer returned when no requested source resolves
(`summarize_service.py`, also used by the chat service). -/
def fallback_answer : String :=
  "I don\x27t have enough information to answer that question."

/-- Embedding of the id filter in `SummarizeService.generate_answer`:
`[r for r in all_results if r.id in source_ids]`. -/
def resolveSources (all_results : List SearchResult) (source_ids : List String) :
    List SearchResult :=
  all_results.filter (fun r => source_ids.contains r.id)

/-- Semantics of Python's `"\n".join`. -/
def joinLines : List String → String
  | [] => ""
  | [x] => x
  | x :: y :: rest => x ++ "\n" ++ joinLines (y :: rest)

/-- The `context_parts` accumulated by `SummarizeService._build_context`
with `enumerate(sources, 1)` starting at index `i`. -/
def context_parts (i : Nat) : List SearchResult → List String
  | [] => []
  | s :: rest =>
    ("Source " ++ toString i ++ " (" ++ s.title ++ "):") ::
    ("URL: " ++ s.url) ::
    (s.content.take 500) ::
    "" ::
    context_parts (i + 1) rest

/-- Embedding of `SummarizeService._build_context`. -/
def build_context (sources : List SearchResult) : String :=
  joinLines (context_parts 1 sources)

/-- Embedding of `lang_names.get(language, "English")`. -/
def lang_name (language : String) : String :=
  if language == "en" then "English"
  else if language == "sk" then "Slovak"
  else if language == "de" then "German"
  else "English"

/-- Embedding of `SummarizeService._build_prompt`. -/
def build_prompt (query context language : String) : String :=
  "You are a helpful search assistant. Answer the user\x27s question based ONLY on the provided sources.\n\nSources:\n"
    ++ context
    ++ "\n\nUser Question: " ++ query
    ++ "\n\nInstructions:\n- Answer in " ++ lang_name language
    ++ "\n- Use only information from the sources\n- Be concise and accurate (2-3 paragraphs maximum)\n- If sources don\x27t contain the answer, say so\n- Do not make up information\n\nAnswer:"

/-- The system prompt passed by `SummarizeService.generate_answer`. -/
def summarize_system_prompt : String :=
  "You are a helpful search assistant. Answer the user\x27s question based ONLY on the provided sources. Be concise and accurate."

/-- Embedding of `SummarizeService.generate_answer`: one broad index
query (empty string, limit 100), client-side id filter, fallback on an
empty match, otherwise a single generation call whose result is
whitespace-trimmed. -/
def SummarizeService.generate_answer (b : Backend) (query language : String)
    (source_ids : List String) : Except String String × List GatewayCall :=
  match b.search "" 100 with
  | .error e => (.error e, [.searchCall "" 100])
  | .ok all_results =>
    let sources := resolveSources all_results source_ids
    if sources.isEmpty then
      (.ok fallback_answer, [.searchCall "" 100])
    else
      let prompt := build_prompt query (build_context sources) language
      match b.generate prompt (some summarize_system_prompt) with
      | .error e =>
        (.error e, [.searchCall "" 100, .generateCall prompt (some summarize_system_prompt)])
      | .ok answer =>
        (.ok (pyStrip answer), [.searchCall "" 100, .generateCall prompt (some summarize_system_prompt)])

/-- Embedding of `models.SearchRequest` (fields as sent by the client;
`limit` defaults to 10 in pydantic). -/
structure SearchRequest where
  query : String
  language : String
  limit : Nat
deriving DecidableEq, Repr

/-- Embedding of `models.SummarizeRequest`. -/
structure SummarizeRequest where
  query : String
  language : String
  query_id : String
  source_ids : List String
deriving DecidableEq, Repr

/-- Pydantic validation of a `query` field: `min_length=1`,
`max_length=500`, and the `query_not_empty` validator rejecting
whitespace-only strings (the stored value is `query.strip()`). -/
def validQuery (q : String) : Bool :=
  decide (1 ≤ q.length) && decide (q.length ≤ 500) && !(pyStrip q == "")

/-- Pydantic validation of the `language` field: pattern `^(en|sk|de)$`. -/
def validLanguage (l : String) : Bool :=
  l == "en" || l == "sk" || l == "de"

/-- Pydantic validation of `limit`: `ge=1, le=50`. -/
def validLimit (n : Nat) : Bool :=
  decide (1 ≤ n) && decide (n ≤ 50)

/-- FastAPI/pydantic validation of a `/api/search` body. -/
def validSearchRequest (req : SearchRequest) : Bool :=
  validQuery req.query && validLanguage req.language && validLimit req.limit

/-- FastAPI/pydantic validation of an `/api/summarize` body; `min_length=1`
on `source_ids` rejects the empty list. -/
def validSummarizeRequest (req : SummarizeRequest) : Bool :=
  validQuery req.query && validLanguage req.language && !req.source_ids.isEmpty

/-- An HTTP outcome: a 200 body, or an `HTTPException` with a status
code and a `detail` field. -/
inductive Resp (α : Type) where
  | ok (body : α)
  | err (status : Nat) (detail : String)
deriving DecidableEq, Repr

/-- HTTP status code of a response. -/
def Resp.statusOf {α : Type} : Resp α → Nat
  | .ok _ => 200
  | .err s _ => s

/-- Embedding of `models.SearchResponse` (the `query_id` is produced by
`str(uuid4())`, passed in here as the generated value). -/
structure SearchResponse where
  sources : List Source
  query_id : String
deriving DecidableEq, Repr

/-- The JSON field names of `SearchResponse`, from its pydantic model. -/
def SearchResponse.keys : List String := ["sources", "query_id"]

/-- Embedding of `models.SummarizeResponse`. -/
structure SummarizeResponse where
  answer : String
  query_id : String
deriving DecidableEq, Repr

/-- The JSON field names of `SummarizeResponse`, from its pydantic model. -/
def SummarizeResponse.keys : List String := ["answer", "query_id"]

/-- Embedding of the `POST /api/search` handler `search_sources`:
pydantic validation (422), then `SearchService.search` on the stripped
query; any exception becomes a 503 with a fixed generic detail.  `uuid`
is the value of `str(uuid4())` generated for the response. -/
def search_sources (b : Backend) (req : SearchRequest) (uuid : String) :
    Resp SearchResponse × List GatewayCall :=
  if validSearchRequest req then
    match SearchService.search b (pyStrip req.query) req.language req.limit with
    | (.ok sources, tr) => (.ok ⟨sources, uuid⟩, tr)
    | (.error _, tr) => (.err 503 "Search service unavailable", tr)
  else
    (.err 422 "request validation failed", [])

/-- Embedding of the `POST /api/summarize` handler `summarize_answer`:
pydantic validation (422), then `SummarizeService.generate_answer`; any
exception becomes a 500 with a fixed generic detail; the request's
`query_id` is echoed verbatim. -/
def summarize_answer (b : Backend) (req : SummarizeRequest) :
    Resp SummarizeResponse × List GatewayCall :=
  if validSummarizeRequest req then
    match SummarizeService.generate_answer b (pyStrip req.query) req.language req.source_ids with
    | (.ok answer, tr) => (.ok ⟨answer, req.query_id⟩, tr)
    | (.error _, tr) => (.err 500 "Failed to generate answer", tr)
  else
    (.err 422 "request validation failed", [])

/-- Embedding of `chat_service.Source` (title/url/snippet only). -/
structure ChatSource where
  title : String
  url : String
  snippet : String
deriving DecidableEq, Repr

/-- Embedding of `chat_service.ChatResponse`. -/
structure ChatResponse where
  answer : String
  sources : List ChatSource
  query : String
deriving DecidableEq, Repr

/-- The numbered blocks of `ChatService._build_context`, from index `i`. -/
def chat_context_parts (i : Nat) : List SearchResult → List String
  | [] => []
  | r :: rest =>
    ("[" ++ toString i ++ "] " ++ r.title) ::
    ("URL: " ++ r.url) ::
    (r.content.take 500) ::
    "" ::
    chat_context_parts (i + 1) rest

/-- Embedding of `ChatService._build_context`: empty string on no
results, else the joined numbered blocks. -/
def chat_build_context (results : List SearchResult) : String :=
  if results.isEmpty then "" else joinLines (chat_context_parts 1 results)

/-- The system prompt of `ChatService.chat`. -/
def chat_system_prompt : String :=
  "You are a helpful search assistant. Answer the user\x27s question\nbased on the provided context. If the context doesn\x27t contain enough information,\nsay so. Always cite your sources."

/-- The user prompt of `ChatService.chat`. -/
def chat_user_prompt (context query : String) : String :=
  "Context from search results:\n" ++ context ++ "\n\nUser question: " ++ query
    ++ "\n\nPlease provide a helpful answer based on the context above."

/-- Embedding of `ChatService.chat`: search, build context, generate
when the context is non-empty (else the static fallback), and return
the answer with the top-3 sources and the original query. -/
def ChatService.chat (b : Backend) (query : String) (limit : Nat) :
    Except String ChatResponse × List GatewayCall :=
  match b.search query limit with
  | .error e => (.error e, [.searchCall query limit])
  | .ok results =>
    let context := chat_build_context results
    let sources := (results.take 3).map
      (fun r => ChatSource.mk r.title r.url (r.content.take 200))
    if context == "" then
      (.ok ⟨fallback_answer, sources, query⟩, [.searchCall query limit])
    else
      let prompt := chat_user_prompt context query
      match b.generate prompt (some chat_system_prompt) with
      | .error e =>
        (.error e, [.searchCall query limit, .generateCall prompt (some chat_system_prompt)])
      | .ok answer =>
        (.ok ⟨answer, sources, query⟩, [.searchCall query limit, .generateCall prompt (some chat_system_prompt)])

/-- Embedding of the legacy `POST /chat` handler: manual length checks
raising 400, then `ChatService.chat`; an exception becomes a 500 whose
detail interpolates the raw exception text (`f"Search failed: {str(e)}"`). -/
def chat_endpoint (b : Backend) (query : String) (limit : Nat) :
    Resp ChatResponse × List GatewayCall :=
  if query == "" || decide (query.length < 2) then
    (.err 400 "Query too short", [])
  else if decide (query.length > 500) then
    (.err 400 "Query too long", [])
  else
    match ChatService.chat b query limit with
    | (.ok resp, tr) => (.ok resp, tr)
    | (.error e, tr) => (.err 500 ("Search failed: " ++ e), tr)

/-- A backend whose index is empty and whose model returns the empty
string; used to instantiate universally quantified statements. -/
def trivialBackend : Backend :=
  ⟨fun _ _ => .ok [], fun _ _ => .ok ""⟩

/-- A backend both of whose gateways raise with message `"boom"`. -/
def failingBackend : Backend :=
  ⟨fun _ _ => .error "boom", fun _ _ => .error "boom"⟩

/-- Concrete hit used to instantiate universally quantified statements. -/
def hitA : SearchResult := ⟨"1", "Alpha", "Alpha content", "https://a.example", mkRat 19 20⟩

/-- Concrete hit used to instantiate universally quantified statements. -/
def hitB : SearchResult := ⟨"2", "Beta", "Beta content", "https://b.example", mkRat 87 100⟩

/-- Concrete hit used to instantiate universally quantified statements. -/
def hitC : SearchResult := ⟨"3", "Gamma", "Gamma content", "https://c.example", mkRat 41 50⟩

/-- A healthy backend: three ranked hits, a model answer carrying
surrounding whitespace. -/
def okBackend : Backend :=
  ⟨fun _ _ => .ok [hitA, hitB, hitC], fun _ _ => .ok "  An answer.  "⟩

/-- A backend returning a hit whose relevance score exceeds 1. -/
def badScoreBackend : Backend :=
  ⟨fun _ _ => .ok [⟨"1", "Alpha", "Alpha content", "https://a.example", mkRat 3 2⟩],
   fun _ _ => .ok ""⟩

/-- A concrete valid `/api/search` request. -/
def wSearchReq : SearchRequest := ⟨"quantum computing", "en", 10⟩

/-- A concrete valid `/api/summarize` request matching all three hits. -/
def wSummReq : SummarizeRequest := ⟨"quantum computing", "en", "qid-123", ["1", "2", "3"]⟩

/-- A concrete valid `/api/summarize` request matching no hit. -/
def wSummReqNoMatch : SummarizeRequest := ⟨"quantum computing", "en", "qid-123", ["99"]⟩

/-- The 200 body of a response, when present. -/
def Resp.body? {α : Type} : Resp α → Option α
  | .ok b => some b
  | .err _ _ => none

/-- A backend whose index is healthy but whose model raises `"boom"`. -/
def genFailBackend : Backend :=
  ⟨fun _ _ => .ok [hitA, hitB, hitC], fun _ _ => .error "boom"⟩

/-- The `Source` projection of `hitA`. -/
def srcA : Source := ⟨"1", "Alpha", "https://a.example", "Alpha content", mkRat 19 20⟩

/-- The `Source` projection of `hitB`. -/
def srcB : Source := ⟨"2", "Beta", "https://b.example", "Beta content", mkRat 87 100⟩

/-- The `Source` projection of `hitC`. -/
def srcC : Source := ⟨"3", "Gamma", "https://c.example", "Gamma content", mkRat 41 50⟩

/-- String containment: `small` occurs contiguously inside `big`. -/
def ContainsStr (big small : String) : Prop :=
  ∃ pre post, big = pre ++ small ++ post

theorem containsStr_refl (s : String) : ContainsStr s s :=
  ⟨"", "", by simp⟩

theorem containsStr_appendL (a : String) {b s : String} (h : ContainsStr b s) :
    ContainsStr (a ++ b) s := by
  obtain ⟨p, q, rfl⟩ := h
  exact ⟨a ++ p, q, by simp [String.append_assoc]⟩

theorem containsStr_appendR {a s : String} (b : String) (h : ContainsStr a s) :
    ContainsStr (a ++ b) s := by
  obtain ⟨p, q, rfl⟩ := h
  exact ⟨p, q ++ b, by simp [String.append_assoc]⟩

theorem containsStr_trans {a b c : String} (hab : ContainsStr a b)
    (hbc : ContainsStr b c) : ContainsStr a c := by
  obtain ⟨p, q, rfl⟩ := hab
  obtain ⟨p2, q2, rfl⟩ := hbc
  exact ⟨p ++ p2, q2 ++ q, by simp [String.append_assoc]⟩

theorem containsStr_joinLines {l : List String} {s : String} (h : s ∈ l) :
    ContainsStr (joinLines l) s := by
  induction l with
  | nil => cases h
  | cons x rest ih =>
    cases rest with
    | nil =>
      rcases List.mem_cons.mp h with rfl | hm
      · exact containsStr_refl s
      · cases hm
    | cons y t =>
      rcases List.mem_cons.mp h with rfl | hm
      · exact ⟨"", "\n" ++ joinLines (y :: t), by simp [joinLines, String.append_assoc]⟩
      · have : joinLines (x :: y :: t) = (x ++ "\n") ++ joinLines (y :: t) := by
          simp [joinLines, String.append_assoc]
        rw [this]
        exact containsStr_appendL _ (ih hm)

theorem title_mem_context_parts {sources : List SearchResult} {r : SearchResult}
    (h : r ∈ sources) : ∀ i : Nat,
    ∃ part ∈ context_parts i sources, ContainsStr part r.title := by
  induction sources with
  | nil => cases h
  | cons x rest ih =>
    intro i
    rcases List.mem_cons.mp h with rfl | hm
    · refine ⟨"Source " ++ toString i ++ " (" ++ r.title ++ "):", ?_, ?_⟩
      · simp [context_parts]
      · exact ⟨"Source " ++ toString i ++ " (", "):", rfl⟩
    · obtain ⟨p, hp, hc⟩ := ih hm (i + 1)
      exact ⟨p, by simp [context_parts, hp], hc⟩

theorem title_in_build_context {sources : List SearchResult} {r : SearchResult}
    (h : r ∈ sources) : ContainsStr (build_context sources) r.title := by
  obtain ⟨p, hp, hc⟩ := title_mem_context_parts h 1
  exact containsStr_trans (containsStr_joinLines hp) hc

theorem containsStr_build_prompt_lang (query context language : String) :
    ContainsStr (build_prompt query context language) (lang_name language) := by
  unfold build_prompt
  exact ⟨_, _, rfl⟩

theorem containsStr_build_prompt_context (query context language : String) :
    ContainsStr (build_prompt query context language) context := by
  unfold build_prompt
  exact containsStr_appendR _ (containsStr_appendR _ (containsStr_appendR _
    (containsStr_appendR _ (containsStr_appendR _
      (containsStr_appendL _ (containsStr_refl context))))))

theorem mem_resolveSources {all : List SearchResult} {ids : List String}
    {r : SearchResult} :
    r ∈ resolveSources all ids ↔ r ∈ all ∧ r.id ∈ ids := by
  simp [resolveSources, List.mem_filter]

/-- C1: every summarize call resolves sources by issuing exactly one
search-gateway query, with the empty string and limit 100, and the kept
hits are exactly the broad-fetch hits whose id belongs to the
client-supplied `source_ids`; no hit outside the broad-fetch result can
be resolved. -/
theorem c1_broad_fetch_and_filter (b : Backend) (query language : String)
    (source_ids : List String) :
    ((SummarizeService.generate_answer b query language source_ids).2.filter
        (fun c => !c.isGenerate) = [.searchCall "" 100])
    ∧ ∀ all_results, b.search "" 100 = .ok all_results →
        ∀ r, r ∈ resolveSources all_results source_ids ↔
          (r ∈ all_results ∧ r.id ∈ source_ids) := by
  constructor
  · unfold SummarizeService.generate_answer
    cases hs : b.search "" 100 with
    | error e => simp [GatewayCall.isGenerate]
    | ok all_results =>
      by_cases hemp : (resolveSources all_results source_ids).isEmpty
      · simp [hemp, GatewayCall.isGenerate]
      · simp only [hemp]
        split
        · simp [GatewayCall.isGenerate]
        · split <;> simp [GatewayCall.isGenerate]
  · intro all_results hs r
    exact mem_resolveSources

/-- Witness for C1 at a concrete backend and id set. -/
theorem c1_broad_fetch_and_filter_witness :
    ((SummarizeService.generate_answer okBackend "q" "en" ["1"]).2.filter
        (fun c => !c.isGenerate) = [.searchCall "" 100])
    ∧ (hitA ∈ resolveSources [hitA, hitB, hitC] ["1"] ↔
        (hitA ∈ [hitA, hitB, hitC] ∧ hitA.id ∈ ["1"])) :=
  ⟨(c1_broad_fetch_and_filter okBackend "q" "en" ["1"]).1,
   (c1_broad_fetch_and_filter okBackend "q" "en" ["1"]).2 [hitA, hitB, hitC] rfl hitA⟩

/-- C2: a valid summarize request whose source_ids match zero hits of
the broad re-fetch yields HTTP 200 whose answer is the fixed fallback
string, raises no error, and never invokes the language-model backend. -/
theorem c2_no_match_fallback (b : Backend) (req : SummarizeRequest)
    (all_results : List SearchResult)
    (hv : validSummarizeRequest req = true)
    (hs : b.search "" 100 = .ok all_results)
    (hempty : resolveSources all_results req.source_ids = []) :
    (summarize_answer b req).1 = .ok ⟨fallback_answer, req.query_id⟩
    ∧ (summarize_answer b req).1.statusOf = 200
    ∧ ∀ c ∈ (summarize_answer b req).2, c.isGenerate = false := by
  have h : summarize_answer b req
      = (.ok ⟨fallback_answer, req.query_id⟩, [.searchCall "" 100]) := by
    unfold summarize_answer SummarizeService.generate_answer
    simp [hv, hs, hempty]
  rw [h]
  refine ⟨rfl, rfl, ?_⟩
  intro c hc
  simp only [List.mem_singleton] at hc
  subst hc
  rfl

/-- Witness for C2: the healthy three-hit backend with an unmatched id. -/
theorem c2_no_match_fallback_witness :
    (summarize_answer okBackend wSummReqNoMatch).1
        = .ok ⟨fallback_answer, "qid-123"⟩
    ∧ (summarize_answer okBackend wSummReqNoMatch).1.statusOf = 200
    ∧ ∀ c ∈ (summarize_answer okBackend wSummReqNoMatch).2, c.isGenerate = false :=
  c2_no_match_fallback okBackend wSummReqNoMatch [hitA, hitB, hitC]
    (by decide) rfl (by decide)

/-- C9: summarize source resolution returns hits in broad-fetch order
(the resolved list is a sublist of the broad fetch), is invariant under
permutation of the client-supplied id list, and listing an id more than
once does not duplicate its source. -/
theorem c9_resolution_order_and_set_semantics (all : List SearchResult)
    (ids : List String) :
    (resolveSources all ids).Sublist all
    ∧ (∀ ids2, ids.Perm ids2 → resolveSources all ids2 = resolveSources all ids)
    ∧ resolveSources all (ids.dedup) = resolveSources all ids := by
  refine ⟨List.filter_sublist all, ?_, ?_⟩
  · intro ids2 hp
    unfold resolveSources
    refine List.filter_congr ?_
    intro r _
    have hm : r.id ∈ ids2 ↔ r.id ∈ ids := hp.symm.mem_iff
    simp [hm]
  · unfold resolveSources
    refine List.filter_congr ?_
    intro r _
    simp [List.mem_dedup]

theorem searchService_trace (b : Backend) (q lang : String) (lim : Nat) :
    (SearchService.search b q lang lim).2 = [.searchCall q lim] := by
  unfold SearchService.search
  cases hs : b.search q lim with
  | error e => rfl
  | ok results =>
    dsimp only
    cases ht : toSources results with
    | error e => rfl
    | ok srcs => rfl

theorem toSources_ok_of_bounds {results : List SearchResult}
    (h : ∀ r ∈ results, 0 ≤ r.score ∧ r.score ≤ 1) :
    ∃ srcs, toSources results = .ok srcs := by
  induction results with
  | nil => exact ⟨[], rfl⟩
  | cons x rest ih =>
    obtain ⟨srcs, hrest⟩ := ih (fun r hr => h r (List.mem_cons_of_mem _ hr))
    have hx := h x (List.mem_cons_self _ _)
    refine ⟨⟨x.id, x.title, x.url, extract_snippet x.content 200, x.score⟩ :: srcs, ?_⟩
    simp [toSources, mkSource, hx, hrest]

theorem mkSource_ok {i t u sn : String} {sc : ℚ} {s : Source}
    (h : mkSource i t u sn sc = .ok s) :
    s = ⟨i, t, u, sn, sc⟩ ∧ 0 ≤ sc ∧ sc ≤ 1 := by
  unfold mkSource at h
  split at h
  · cases h
    exact ⟨rfl, by assumption⟩
  · cases h

theorem toSources_ok_mem {results : List SearchResult} {srcs : List Source}
    (h : toSources results = .ok srcs) :
    ∀ s ∈ srcs, ∃ r ∈ results,
      mkSource r.id r.title r.url (extract_snippet r.content 200) r.score = .ok s := by
  induction results generalizing srcs with
  | nil =>
    injection h with h'
    subst h'
    intro s hs
    cases hs
  | cons x rest ih =>
    unfold toSources at h
    cases hmk : mkSource x.id x.title x.url (extract_snippet x.content 200) x.score with
    | error e =>
      simp only [hmk] at h
      cases h
    | ok s0 =>
      simp only [hmk] at h
      cases hrest : toSources rest with
      | error e =>
        simp only [hrest] at h
        cases h
      | ok ss =>
        simp only [hrest] at h
        injection h with h'
        subst h'
        intro s hs
        rcases List.mem_cons.mp hs with rfl | hm
        · exact ⟨x, List.mem_cons_self _ _, hmk⟩
        · obtain ⟨r, hr, hrs⟩ := ih hrest s hm
          exact ⟨r, List.mem_cons_of_mem _ hr, hrs⟩

theorem toSources_error_of_bad {results : List SearchResult}
    (h : ∃ r ∈ results, r.score < 0 ∨ 1 < r.score) :
    ∃ e, toSources results = .error e := by
  induction results with
  | nil => simp at h
  | cons x rest ih =>
    by_cases hx : 0 ≤ x.score ∧ x.score ≤ 1
    · have hrest : ∃ r ∈ rest, r.score < 0 ∨ 1 < r.score := by
        rcases h with ⟨r, hr, hbad⟩
        rcases List.mem_cons.mp hr with rfl | hm
        · exfalso
          rcases hbad with hb | hb
          · exact absurd hb (not_lt.mpr hx.1)
          · exact absurd hb (not_lt.mpr hx.2)
        · exact ⟨r, hm, hbad⟩
      obtain ⟨e, he⟩ := ih hrest
      exact ⟨e, by simp [toSources, mkSource, hx, he]⟩
    · exact ⟨"relevance_score out of range", by simp [toSources, mkSource, hx]⟩

theorem mem_take_mergeSort {srcs : List Source} {lim : Nat} {s : Source}
    (h : s ∈ (srcs.mergeSort searchLe).take lim) : s ∈ srcs :=
  (List.mergeSort_perm srcs searchLe).mem_iff.mp
    (List.Sublist.mem h (List.take_sublist _ _))

theorem pairwise_take_mergeSort (srcs : List Source) (lim : Nat) :
    ((srcs.mergeSort searchLe).take lim).Pairwise
      (fun a b => b.relevance_score ≤ a.relevance_score) := by
  have htrans : ∀ a b c : Source, searchLe a b → searchLe b c → searchLe a c := by
    intro a b c hab hbc
    simp only [searchLe, decide_eq_true_eq] at *
    linarith
  have htot : ∀ a b : Source, searchLe a b || searchLe b a := by
    intro a b
    simp only [searchLe, Bool.or_eq_true, decide_eq_true_eq]
    exact le_total _ _
  have hp := List.sorted_mergeSort htrans htot srcs
  exact (List.Pairwise.sublist (List.take_sublist _ _) hp).imp
    (fun h => by simpa [searchLe] using h)

theorem search_sources_ok (uuid : String) {b : Backend} {req : SearchRequest}
    {results : List SearchResult} {srcs : List Source}
    (hv : validSearchRequest req = true)
    (hs : b.search (pyStrip req.query) req.limit = .ok results)
    (hts : toSources results = .ok srcs) :
    search_sources b req uuid
      = (.ok ⟨(srcs.mergeSort searchLe).take req.limit, uuid⟩,
         [.searchCall (pyStrip req.query) req.limit]) := by
  simp [search_sources, SearchService.search, hv, hs, hts]

theorem extract_snippet_length (content : String) :
    (extract_snippet content 200).length ≤ 203 := by
  unfold extract_snippet
  split
  · decide
  · split
    · rw [String.length_append, String.take_eq, String.length_mk,
        show ("..." : String).length = 3 from rfl]
      have h1 : (List.take 200 content.data).length ≤ 200 := by
        rw [List.length_take]
        exact min_le_left _ _
      omega
    · rename_i h1 h2
      omega

theorem extract_snippet_eq_of_le {content : String} (h : content.length ≤ 200) :
    extract_snippet content 200 = content := by
  unfold extract_snippet
  split
  · rename_i h0
    exact h0.symm
  · rw [if_neg (by omega)]

theorem extract_snippet_eq_of_gt {content : String} (h : 200 < content.length) :
    extract_snippet content 200 = content.take 200 ++ "..." := by
  unfold extract_snippet
  have hne : ¬ content = "" := by
    intro h0
    subst h0
    simp at h
  simp [hne, h]

/-- Witness for C9 at a concrete hit list and permuted id lists. -/
theorem c9_resolution_order_and_set_semantics_witness :
    (resolveSources [hitA, hitB] ["2", "1"]).Sublist [hitA, hitB]
    ∧ resolveSources [hitA, hitB] ["1", "2"] = resolveSources [hitA, hitB] ["2", "1"]
    ∧ resolveSources [hitA, hitB] (["2", "1"].dedup) = resolveSources [hitA, hitB] ["2", "1"] :=
  ⟨(c9_resolution_order_and_set_semantics [hitA, hitB] ["2", "1"]).1,
   (c9_resolution_order_and_set_semantics [hitA, hitB] ["2", "1"]).2.1 ["1", "2"] (by decide),
   (c9_resolution_order_and_set_semantics [hitA, hitB] ["2", "1"]).2.2⟩

/-- C3: `/api/search` never invokes the language-model backend, for any
request, uuid and backend behaviour; its response model has no `answer`
field; and for a valid request with a healthy backend (search succeeds
with in-range scores) the response is HTTP 200 carrying a sources list
and the generated non-empty `query_id`. -/
theorem c3_search_never_calls_llm (b : Backend) (req : SearchRequest) (uuid : String) :
    (∀ c ∈ (search_sources b req uuid).2, c.isGenerate = false)
    ∧ "answer" ∉ SearchResponse.keys
    ∧ (validSearchRequest req = true →
        ∀ results, b.search (pyStrip req.query) req.limit = .ok results →
        (∀ r ∈ results, 0 ≤ r.score ∧ r.score ≤ 1) →
        uuid ≠ "" →
        (search_sources b req uuid).1.statusOf = 200
        ∧ Option.map SearchResponse.query_id ((search_sources b req uuid).1.body?)
            = some uuid
        ∧ Option.map SearchResponse.query_id ((search_sources b req uuid).1.body?)
            ≠ some "") := by
  refine ⟨?_, by decide, ?_⟩
  · intro c hc
    by_cases hv : validSearchRequest req = true
    · have h2 : (search_sources b req uuid).2
          = (SearchService.search b (pyStrip req.query) req.language req.limit).2 := by
        simp only [search_sources, hv, if_true]
        rcases SearchService.search b (pyStrip req.query) req.language req.limit with ⟨res, tr⟩
        cases res <;> rfl
      rw [h2, searchService_trace] at hc
      simp only [List.mem_singleton] at hc
      subst hc
      rfl
    · have h2 : (search_sources b req uuid).2 = [] := by
        simp [search_sources, hv]
      rw [h2] at hc
      cases hc
  · intro hv results hs hb hu
    obtain ⟨srcs, hts⟩ := toSources_ok_of_bounds hb
    have h := search_sources_ok uuid hv hs hts
    rw [h]
    exact ⟨rfl, rfl, by simp [Resp.body?, hu]⟩

/-- Witness for C3 at the healthy backend and a valid request. -/
theorem c3_search_never_calls_llm_witness :
    (GatewayCall.isGenerate
      (.searchCall (pyStrip wSearchReq.query) wSearchReq.limit) = false)
    ∧ "answer" ∉ SearchResponse.keys
    ∧ ((search_sources okBackend wSearchReq "u").1.statusOf = 200
        ∧ Option.map SearchResponse.query_id
            ((search_sources okBackend wSearchReq "u").1.body?) = some "u"
        ∧ Option.map SearchResponse.query_id
            ((search_sources okBackend wSearchReq "u").1.body?) ≠ some "") :=
  ⟨(c3_search_never_calls_llm okBackend wSearchReq "u").1
      (.searchCall (pyStrip wSearchReq.query) wSearchReq.limit) (by decide),
   (c3_search_never_calls_llm okBackend wSearchReq "u").2.1,
   (c3_search_never_calls_llm okBackend wSearchReq "u").2.2 (by decide)
     [hitA, hitB, hitC] rfl (by decide) (by decide)⟩

/-- C4 counterexample: the legacy `/chat` endpoint surfaces a
query-length violation as HTTP 400, not 422, refuting the claim that
every malformed request shape is surfaced as 422. -/
theorem c4_chat_length_violation_is_400 :
    (chat_endpoint trivialBackend "a" 5).1 = .err 400 "Query too short"
    ∧ (chat_endpoint trivialBackend "a" 5).1.statusOf = 400
    ∧ (400 : Nat) ≠ 422 := by
  exact ⟨rfl, rfl, by decide⟩

/-- C4 (amended): malformed `/api/search` and `/api/summarize` request
shapes are surfaced as HTTP 422 — in particular `/api/summarize` with an
empty `source_ids` list is 422 regardless of every other field — while
the legacy `/chat` endpoint surfaces its query-length violations as
HTTP 400. -/
theorem c4_validation_statuses (b : Backend) :
    (∀ req uuid, validSearchRequest req = false →
        (search_sources b req uuid).1 = .err 422 "request validation failed")
    ∧ (∀ req, validSummarizeRequest req = false →
        (summarize_answer b req).1 = .err 422 "request validation failed")
    ∧ (∀ req : SummarizeRequest, req.source_ids = [] →
        (summarize_answer b req).1 = .err 422 "request validation failed")
    ∧ (∀ q lim, q.length < 2 ∨ 500 < q.length →
        (chat_endpoint b q lim).1.statusOf = 400) := by
  refine ⟨?_, ?_, ?_, ?_⟩
  · intro req uuid hv
    simp [search_sources, hv]
  · intro req hv
    simp [summarize_answer, hv]
  · intro req hids
    have hv : validSummarizeRequest req = false := by
      simp [validSummarizeRequest, hids]
    simp [summarize_answer, hv]
  · intro q lim h
    rcases h with h | h
    · have hcond : (q == "" || decide (q.length < 2)) = true := by
        simp [h]
      simp [chat_endpoint, hcond, Resp.statusOf]
    · have hq : ¬ q = "" := by
        intro hq'
        subst hq'
        simp at h
      have h2 : ¬ q.length < 2 := by omega
      simp [chat_endpoint, hq, h2, h, Resp.statusOf]

/-- Witness for C4 at concrete malformed requests. -/
theorem c4_validation_statuses_witness :
    (search_sources trivialBackend ⟨"", "en", 10⟩ "u").1
        = .err 422 "request validation failed"
    ∧ (summarize_answer trivialBackend ⟨"q", "xx", "u", ["1"]⟩).1
        = .err 422 "request validation failed"
    ∧ (summarize_answer trivialBackend ⟨"q", "en", "u", []⟩).1
        = .err 422 "request validation failed"
    ∧ (chat_endpoint trivialBackend "a" 5).1.statusOf = 400 :=
  ⟨(c4_validation_statuses trivialBackend).1 ⟨"", "en", 10⟩ "u" (by decide),
   (c4_validation_statuses trivialBackend).2.1 ⟨"q", "xx", "u", ["1"]⟩ (by decide),
   (c4_validation_statuses trivialBackend).2.2.1 ⟨"q", "en", "u", []⟩ rfl,
   (c4_validation_statuses trivialBackend).2.2.2 "a" 5 (Or.inl (by decide))⟩

/-- C5 counterexample: on a search-backend failure the legacy `/chat`
endpoint echoes the raw exception text into the client-visible detail,
refuting the claim that no raw exception text is ever echoed. -/
theorem c5_chat_leaks_exception_text :
    (chat_endpoint failingBackend "hello" 5).1 = .err 500 "Search failed: boom"
    ∧ ContainsStr "Search failed: boom" "boom" := by
  refine ⟨by decide, "Search failed: ", "", by decide⟩

/-- C5 (amended): an index failure makes `/api/search` answer 503 and a
backend failure makes `/api/summarize` answer 500, both with a fixed
generic detail independent of the exception text; but the legacy `/chat`
endpoint answers 500 with a detail that embeds the raw exception text. -/
theorem c5_backend_failure_statuses (b : Backend) :
    (∀ req uuid e, validSearchRequest req = true →
        b.search (pyStrip req.query) req.limit = .error e →
        (search_sources b req uuid).1 = .err 503 "Search service unavailable")
    ∧ (∀ req e, validSummarizeRequest req = true →
        b.search "" 100 = .error e →
        (summarize_answer b req).1 = .err 500 "Failed to generate answer")
    ∧ (∀ req all_results e, validSummarizeRequest req = true →
        b.search "" 100 = .ok all_results →
        resolveSources all_results req.source_ids ≠ [] →
        b.generate (build_prompt (pyStrip req.query)
            (build_context (resolveSources all_results req.source_ids)) req.language)
          (some summarize_system_prompt) = .error e →
        (summarize_answer b req).1 = .err 500 "Failed to generate answer")
    ∧ (∀ q lim e, (q == "") = false → ¬ q.length < 2 → ¬ 500 < q.length →
        b.search q lim = .error e →
        (chat_endpoint b q lim).1 = .err 500 ("Search failed: " ++ e)) := by
  refine ⟨?_, ?_, ?_, ?_⟩
  · intro req uuid e hv hs
    simp [search_sources, SearchService.search, hv, hs]
  · intro req e hv hs
    simp [summarize_answer, SummarizeService.generate_answer, hv, hs]
  · intro req all_results e hv hs hne hg
    have hemp : (resolveSources all_results req.source_ids).isEmpty = false := by
      cases h' : resolveSources all_results req.source_ids with
      | nil => exact absurd h' hne
      | cons x xs => rfl
    simp [summarize_answer, SummarizeService.generate_answer, hv, hs, hemp, hg]
  · intro q lim e hq h2 h3 hs
    simp [chat_endpoint, hq, h2, h3, ChatService.chat, hs]

/-- Witness for C5 at concrete failing backends. -/
theorem c5_backend_failure_statuses_witness :
    (search_sources failingBackend wSearchReq "u").1
        = .err 503 "Search service unavailable"
    ∧ (summarize_answer failingBackend wSummReq).1
        = .err 500 "Failed to generate answer"
    ∧ (summarize_answer genFailBackend wSummReq).1
        = .err 500 "Failed to generate answer"
    ∧ (chat_endpoint failingBackend "hello" 5).1
        = .err 500 ("Search failed: " ++ "boom") :=
  ⟨(c5_backend_failure_statuses failingBackend).1 wSearchReq "u" "boom" (by decide) rfl,
   (c5_backend_failure_statuses failingBackend).2.1 wSummReq "boom" (by decide) rfl,
   (c5_backend_failure_statuses genFailBackend).2.2.1 wSummReq [hitA, hitB, hitC] "boom"
     (by decide) rfl (by decide) rfl,
   (c5_backend_failure_statuses failingBackend).2.2.2 "hello" 5 "boom"
     (by decide) (by decide) (by decide) rfl⟩

/-- C6: every source of a successful `/api/search` response has a
relevance_score within [0, 1] and a snippet of length at most 203 that
equals the hit content when it has at most 200 characters, and the
200-character prefix followed by "..." otherwise. -/
theorem c6_snippet_and_score (b : Backend) (req : SearchRequest) (uuid : String)
    (results : List SearchResult)
    (hv : validSearchRequest req = true)
    (hs : b.search (pyStrip req.query) req.limit = .ok results) :
    ∀ resp, (search_sources b req uuid).1 = .ok resp →
      ∀ s ∈ resp.sources,
        (0 ≤ s.relevance_score ∧ s.relevance_score ≤ 1)
        ∧ s.snippet.length ≤ 203
        ∧ ∃ r ∈ results,
            (r.content.length ≤ 200 → s.snippet = r.content)
            ∧ (200 < r.content.length → s.snippet = r.content.take 200 ++ "...") := by
  intro resp hresp s hsmem
  cases hts : toSources results with
  | error e =>
    have h : (search_sources b req uuid).1 = .err 503 "Search service unavailable" := by
      simp [search_sources, SearchService.search, hv, hs, hts]
    rw [h] at hresp
    cases hresp
  | ok srcs =>
    have h1 : (search_sources b req uuid).1
        = .ok ⟨(srcs.mergeSort searchLe).take req.limit, uuid⟩ := by
      rw [search_sources_ok uuid hv hs hts]
    rw [h1] at hresp
    injection hresp with h'
    subst h'
    have hmem2 : s ∈ srcs := mem_take_mergeSort hsmem
    obtain ⟨r, hr, hmk⟩ := toSources_ok_mem hts s hmem2
    obtain ⟨hseq, hge, hle⟩ := mkSource_ok hmk
    subst hseq
    exact ⟨⟨hge, hle⟩, extract_snippet_length r.content, r, hr,
      fun hlen => extract_snippet_eq_of_le hlen,
      fun hlen => extract_snippet_eq_of_gt hlen⟩

unseal List.merge List.mergeSort in
/-- Witness for C6: the first source of the concrete healthy response. -/
theorem c6_snippet_and_score_witness :
    (0 ≤ srcA.relevance_score ∧ srcA.relevance_score ≤ 1)
    ∧ srcA.snippet.length ≤ 203
    ∧ ∃ r ∈ [hitA, hitB, hitC],
        (r.content.length ≤ 200 → srcA.snippet = r.content)
        ∧ (200 < r.content.length → srcA.snippet = r.content.take 200 ++ "...") :=
  c6_snippet_and_score okBackend wSearchReq "u" [hitA, hitB, hitC] (by decide) rfl
    ⟨[srcA, srcB, srcC], "u"⟩ (by decide) srcA (by decide)

/-- C7: every successful `/api/search` response lists its sources in
non-increasing relevance_score order: each adjacent pair satisfies
`later ≤ earlier`. -/
theorem c7_sources_sorted (b : Backend) (req : SearchRequest) (uuid : String)
    (results : List SearchResult)
    (hv : validSearchRequest req = true)
    (hs : b.search (pyStrip req.query) req.limit = .ok results)
    (hb : ∀ r ∈ results, 0 ≤ r.score ∧ r.score ≤ 1) :
    ∃ resp, (search_sources b req uuid).1 = .ok resp
      ∧ resp.sources.Chain' (fun a b => b.relevance_score ≤ a.relevance_score) := by
  obtain ⟨srcs, hts⟩ := toSources_ok_of_bounds hb
  refine ⟨⟨(srcs.mergeSort searchLe).take req.limit, uuid⟩, ?_, ?_⟩
  · rw [search_sources_ok uuid hv hs hts]
  · exact (pairwise_take_mergeSort srcs req.limit).chain'

/-- Witness for C7 at the concrete healthy backend. -/
theorem c7_sources_sorted_witness :
    ∃ resp, (search_sources okBackend wSearchReq "u").1 = .ok resp
      ∧ resp.sources.Chain' (fun a b => b.relevance_score ≤ a.relevance_score) :=
  c7_sources_sorted okBackend wSearchReq "u" [hitA, hitB, hitC] (by decide) rfl (by decide)

/-- C10: a hit with a relevance score outside [0, 1] makes `/api/search`
reject the whole request with HTTP 503; no sources are returned. -/
theorem c10_out_of_range_score_rejected (b : Backend) (req : SearchRequest)
    (uuid : String) (results : List SearchResult)
    (hv : validSearchRequest req = true)
    (hs : b.search (pyStrip req.query) req.limit = .ok results)
    (hbad : ∃ r ∈ results, r.score < 0 ∨ 1 < r.score) :
    (search_sources b req uuid).1 = .err 503 "Search service unavailable"
    ∧ (search_sources b req uuid).1.statusOf = 503
    ∧ (search_sources b req uuid).1.body? = none := by
  obtain ⟨e, he⟩ := toSources_error_of_bad hbad
  have h : (search_sources b req uuid).1 = .err 503 "Search service unavailable" := by
    simp [search_sources, SearchService.search, hv, hs, he]
  rw [h]
  exact ⟨rfl, rfl, rfl⟩

/-- Witness for C10 at the backend returning a score of 3/2. -/
theorem c10_out_of_range_score_rejected_witness :
    (search_sources badScoreBackend wSearchReq "u").1
        = .err 503 "Search service unavailable"
    ∧ (search_sources badScoreBackend wSearchReq "u").1.statusOf = 503
    ∧ (search_sources badScoreBackend wSearchReq "u").1.body? = none :=
  c10_out_of_range_score_rejected badScoreBackend wSearchReq "u"
    [⟨"1", "Alpha", "Alpha content", "https://a.example", mkRat 3 2⟩]
    (by decide) rfl
    ⟨⟨"1", "Alpha", "Alpha content", "https://a.example", mkRat 3 2⟩,
      by decide, Or.inr (by decide)⟩

/-- C8: a valid summarize request matching at least one hit triggers
exactly one generation call; the prompt of that call contains the title
of every matched source and the English name of the requested language
(English, Slovak or German); the answer is the generated text with
surrounding whitespace removed; and the response echoes the request's
`query_id` verbatim. -/
theorem c8_single_generation (b : Backend) (req : SummarizeRequest)
    (all_results : List SearchResult) (gen_text : String)
    (hv : validSummarizeRequest req = true)
    (hs : b.search "" 100 = .ok all_results)
    (hne : resolveSources all_results req.source_ids ≠ [])
    (hg : b.generate (build_prompt (pyStrip req.query)
            (build_context (resolveSources all_results req.source_ids)) req.language)
          (some summarize_system_prompt) = .ok gen_text) :
    (summarize_answer b req).2
      = [.searchCall "" 100,
         .generateCall (build_prompt (pyStrip req.query)
             (build_context (resolveSources all_results req.source_ids)) req.language)
           (some summarize_system_prompt)]
    ∧ (summarize_answer b req).2.countP (fun c => c.isGenerate) = 1
    ∧ (∀ r ∈ resolveSources all_results req.source_ids,
        ContainsStr (build_prompt (pyStrip req.query)
            (build_context (resolveSources all_results req.source_ids)) req.language)
          r.title)
    ∧ ContainsStr (build_prompt (pyStrip req.query)
          (build_context (resolveSources all_results req.source_ids)) req.language)
        (lang_name req.language)
    ∧ (lang_name req.language = "English" ∨ lang_name req.language = "Slovak"
        ∨ lang_name req.language = "German")
    ∧ (summarize_answer b req).1 = .ok ⟨pyStrip gen_text, req.query_id⟩ := by
  have hemp : (resolveSources all_results req.source_ids).isEmpty = false := by
    cases h' : resolveSources all_results req.source_ids with
    | nil => exact absurd h' hne
    | cons x xs => rfl
  have heq : summarize_answer b req
      = (.ok ⟨pyStrip gen_text, req.query_id⟩,
         [.searchCall "" 100,
          .generateCall (build_prompt (pyStrip req.query)
              (build_context (resolveSources all_results req.source_ids)) req.language)
            (some summarize_system_prompt)]) := by
    simp [summarize_answer, SummarizeService.generate_answer, hv, hs, hemp, hg]
  refine ⟨by rw [heq], by rw [heq]; rfl, ?_, ?_, ?_, by rw [heq]⟩
  · intro r hr
    exact containsStr_trans (containsStr_build_prompt_context _ _ _)
      (title_in_build_context hr)
  · exact containsStr_build_prompt_lang _ _ _
  · have h' := hv
    simp only [validSummarizeRequest, Bool.and_eq_true] at h'
    have hl := h'.1.2
    simp only [validLanguage, Bool.or_eq_true, beq_iff_eq] at hl
    rcases hl with (h | h) | h <;> simp [lang_name, h]

/-- Witness for C8 at the healthy backend and the three-id request. -/
theorem c8_single_generation_witness :
    (summarize_answer okBackend wSummReq).2
      = [.searchCall "" 100,
         .generateCall (build_prompt (pyStrip wSummReq.query)
             (build_context (resolveSources [hitA, hitB, hitC] wSummReq.source_ids))
             wSummReq.language)
           (some summarize_system_prompt)]
    ∧ (summarize_answer okBackend wSummReq).2.countP (fun c => c.isGenerate) = 1
    ∧ ContainsStr (build_prompt (pyStrip wSummReq.query)
          (build_context (resolveSources [hitA, hitB, hitC] wSummReq.source_ids))
          wSummReq.language) hitA.title
    ∧ ContainsStr (build_prompt (pyStrip wSummReq.query)
          (build_context (resolveSources [hitA, hitB, hitC] wSummReq.source_ids))
          wSummReq.language) (lang_name wSummReq.language)
    ∧ (lang_name wSummReq.language = "English" ∨ lang_name wSummReq.language = "Slovak"
        ∨ lang_name wSummReq.language = "German")
    ∧ (summarize_answer okBackend wSummReq).1
        = .ok ⟨pyStrip "  An answer.  ", wSummReq.query_id⟩ :=
  have h := c8_single_generation okBackend wSummReq [hitA, hitB, hitC] "  An answer.  "
    (by decide) rfl (by decide) rfl
  ⟨h.1, h.2.1, h.2.2.1 hitA (by decide), h.2.2.2.1, h.2.2.2.2.1, h.2.2.2.2.2⟩

end SearchApi
